import Mathlib

/-!
Verification development for the ATCS-GH decision-and-learning core.

The definitions below are a shallow embedding of the two source modules:

* `ai/traffic_env.py` — the SUMO traffic-signal environment (phase state
  machine, emergency preemption, state encoder, reward model, `step`);
* `ai/dqn_agent.py` — the Double-DQN agent (replay buffer, bootstrap
  target, epsilon decay).

Python floats are modelled as rationals.  The external simulator (TraCI)
is modelled as an oracle record `SimTrace` supplying the values each
TraCI query returns during one `step` call; the controller never mutates
those values inside a single step, so they are plain inputs.  The only
part of the simulator bridge that is not embedded is bookkeeping that no
claim touches (the per-vehicle `emergency_log`, the TL signal-string
side effects).  `np.std` is kept as an explicit function parameter
`stdFn` of the reward model, because the population standard deviation
is not rational-valued in general; every theorem below either holds for
all such functions or evaluates the reward on an input whose balance
branch does not consult it.
-/

namespace ATCS

/-! ### Constants from traffic_env.py -/

/-- Phase index NS_THROUGH (traffic_env.py line 108). -/
def NS_THROUGH : ℕ := 0
/-- Phase index NS_LEFT. -/
def NS_LEFT : ℕ := 1
/-- Phase index NS_YELLOW. -/
def NS_YELLOW : ℕ := 2
/-- Phase index EW_THROUGH. -/
def EW_THROUGH : ℕ := 3
/-- Phase index EW_LEFT. -/
def EW_LEFT : ℕ := 4
/-- Phase index EW_YELLOW. -/
def EW_YELLOW : ℕ := 5

/-- Number of phases. -/
def NUM_PHASES : ℕ := 6

/-- Green (non-yellow) phases, the set GREEN_PHASES of the source. -/
def GREEN_PHASES : List ℕ := [NS_THROUGH, NS_LEFT, EW_THROUGH, EW_LEFT]

/-- Incoming edges, indexed in source order: 0 = N2J, 1 = S2J, 2 = E2J, 3 = W2J. -/
def INCOMING_EDGES : List (Fin 4) := [0, 1, 2, 3]

/-- Incoming lanes, indexed in source order:
0 = N2J_0, 1 = N2J_1, 2 = S2J_0, 3 = S2J_1, 4 = E2J_0, 5 = W2J_0. -/
def INCOMING_LANES : List (Fin 6) := [0, 1, 2, 3, 4, 5]

/-- EDGE_TO_GREENS of the source: which green phases serve each incoming
edge.  Edges 0, 1 (N2J, S2J) map to the NS greens, edges 2, 3 (E2J, W2J)
to the EW greens, through variant first. -/
def EDGE_TO_GREENS (e : Fin 4) : List ℕ :=
  if e.val ≤ 1 then [NS_THROUGH, NS_LEFT] else [EW_THROUGH, EW_LEFT]

/-- Action constant ACTION_HOLD. -/
def ACTION_HOLD : ℕ := 0

/-- ACTION_TO_PHASE of the source: partial map from action index to the
target green phase (a Python dict lookup with `.get`). -/
def ACTION_TO_PHASE : ℕ → Option ℕ
  | 1 => some NS_THROUGH
  | 2 => some NS_LEFT
  | 3 => some EW_THROUGH
  | 4 => some EW_LEFT
  | _ => none

/-- State normalisation constant MAX_QUEUE. -/
def MAX_QUEUE : ℚ := 50
/-- State normalisation constant MAX_QUEUE_LANE. -/
def MAX_QUEUE_LANE : ℚ := 25
/-- State normalisation constant MAX_SPEED (13.89 m per s). -/
def MAX_SPEED : ℚ := 1389 / 100
/-- State normalisation constant MAX_WAIT. -/
def MAX_WAIT : ℚ := 600
/-- State normalisation constant MAX_PHASE_T. -/
def MAX_PHASE_T : ℚ := 96

/-- DECISION_INTERVAL: SUMO seconds between agent decisions. -/
def DECISION_INTERVAL : ℕ := 5
/-- MIN_GREEN_THROUGH: minimum hold of a through green phase. -/
def MIN_GREEN_THROUGH : ℕ := 15
/-- MIN_GREEN_LEFT: minimum hold of a left-turn green phase. -/
def MIN_GREEN_LEFT : ℕ := 8
/-- YELLOW_DURATION: seconds of yellow clearance. -/
def YELLOW_DURATION : ℤ := 3
/-- SIM_DURATION: seconds per episode. -/
def SIM_DURATION : ℕ := 7200

/-- Reward weight W_QUEUE_ABS (0.2). -/
def W_QUEUE_ABS : ℚ := 1 / 5
/-- Reward weight W_QUEUE_DELTA (0.5). -/
def W_QUEUE_DELTA : ℚ := 1 / 2
/-- Reward weight W_ARRIVED (3.0). -/
def W_ARRIVED : ℚ := 3
/-- Reward weight W_EMERGENCY (50.0). -/
def W_EMERGENCY : ℚ := 50
/-- Reward weight W_FLICKER (10.0). -/
def W_FLICKER : ℚ := 10
/-- Reward weight W_BALANCE (4.0). -/
def W_BALANCE : ℚ := 4
/-- Reward weight W_MAX_WAIT (0.4). -/
def W_MAX_WAIT : ℚ := 2 / 5
/-- FAIR_WAIT_THRESH (30.0 seconds). -/
def FAIR_WAIT_THRESH : ℚ := 30

/-! ### Environment state (the mutable fields of TrafficEnv) -/

/-- Mutable per-episode fields of `TrafficEnv` that the step logic reads
and writes (the TraCI connection handle and the per-vehicle emergency
log are not modelled; no claim mentions them). -/
structure EnvState where
  phase : ℕ
  phaseTimer : ℕ
  inYellow : Bool
  yellowCountdown : ℤ
  nextGreen : ℕ
  simStep : ℕ
  prevTotalQueue : ℚ
  totalArrived : ℕ
  episodeRewards : List ℚ
  episodeQueues : List ℚ
  episodeWaits : List ℚ
  deriving DecidableEq

/-! ### Phase control (TrafficEnv private helpers) -/

/-- TrafficEnv can_switch helper: true when the current green phase has
run at least its minimum hold (source lines 520 to 527). -/
def canSwitch (env : EnvState) : Bool :=
  if env.inYellow || !(GREEN_PHASES.contains env.phase) then false
  else
    let minGreen :=
      if env.phase = NS_LEFT ∨ env.phase = EW_LEFT then MIN_GREEN_LEFT
      else MIN_GREEN_THROUGH
    decide (minGreen ≤ env.phaseTimer)

/-- TrafficEnv initiate_switch helper: begin a yellow transition toward
`targetGreen` (source lines 529 to 553; the TL signal-string command it
sends to the simulator is a side effect on the simulator, not on the
controller state, and is not modelled). -/
def initiateSwitch (env : EnvState) (targetGreen : ℕ) : EnvState :=
  let yellow :=
    if env.phase = NS_THROUGH ∨ env.phase = NS_LEFT then NS_YELLOW else EW_YELLOW
  { env with
      nextGreen := targetGreen
      phase := yellow
      inYellow := true
      yellowCountdown := YELLOW_DURATION }

/-- TrafficEnv complete_switch helper: yellow expired, enter the queued
green and reset the phase timer (source lines 555 to 563). -/
def completeSwitch (env : EnvState) : EnvState :=
  { env with phase := env.nextGreen, inYellow := false, phaseTimer := 0 }

/-! ### Emergency preemption (TrafficEnv check_emergency_preemption) -/

/-- Whether the greens serving edge `e` are already active or queued:
the already_serving test inside check_emergency_preemption. -/
def alreadyServing (env : EnvState) (e : Fin 4) : Bool :=
  (EDGE_TO_GREENS e).contains env.phase ||
    (env.inYellow && (EDGE_TO_GREENS e).contains env.nextGreen)

/-- The edge scan loop of check_emergency_preemption: return on the
first incoming edge carrying an emergency vehicle whose serving greens
are not already active or queued; `emerg e` abstracts the inner vehicle
loop (true when some vehicle of type emergency is on the edge; a TraCI
query failure is the same as an empty edge). -/
def scanPreempt (env : EnvState) (emerg : Fin 4 → Bool) : List (Fin 4) → Bool × Option ℕ
  | [] => (false, none)
  | e :: rest =>
    if emerg e && !alreadyServing env e then (true, some (EDGE_TO_GREENS e).headI)
    else scanPreempt env emerg rest

/-- TrafficEnv check_emergency_preemption (source lines 686 to 713). -/
def checkEmergencyPreemption (env : EnvState) (emerg : Fin 4 → Bool) : Bool × Option ℕ :=
  scanPreempt env emerg INCOMING_EDGES

/-- The decision stage at the top of TrafficEnv.step (source lines 296
to 306): the preemption safety layer runs first and, when it fires, the
requested action is never consulted; otherwise a non-hold action with
the minimum hold elapsed initiates a switch.  Returns the updated
controller state and the preempted flag. -/
def applyDecision (env : EnvState) (action : ℕ) (emerg : Fin 4 → Bool) : EnvState × Bool :=
  let pre := checkEmergencyPreemption env emerg
  let preempted := pre.1
  let envNew :=
    if preempted then
      match pre.2 with
      | some forcedPhase =>
        if forcedPhase != env.phase && canSwitch env then initiateSwitch env forcedPhase
        else env
      | none => env
    else if action != ACTION_HOLD && canSwitch env then
      match ACTION_TO_PHASE action with
      | some target => if target != env.phase then initiateSwitch env target else env
      | none => env
    else env
  (envNew, preempted)

/-! ### Simulator oracle: the TraCI values one step call consumes -/

/-- Values the simulator returns to the queries issued during one call
of TrafficEnv.step.  Inner-loop queries are indexed by the iteration
number (0 to DECISION_INTERVAL - 1); end-of-block queries are issued
after the loop, with no simulation step in between, so build_state and
the reward read the same values. -/
structure SimTrace where
  /-- Per edge: an emergency-type vehicle is on the edge at the time of
  the preemption scan (getLastStepVehicleIDs and getTypeID). -/
  emergAtDecision : Fin 4 → Bool
  /-- getArrivedNumber after inner simulation step i. -/
  arrivedAt : ℕ → ℕ
  /-- Count of emergency vehicles with speed below 0.1 after inner step i. -/
  emergHaltedAt : ℕ → ℕ
  /-- getMinExpectedNumber after inner step i (0 triggers the early break). -/
  minExpectedAt : ℕ → ℕ
  /-- Per lane, end of block: getLastStepHaltingNumber (a count). -/
  laneQueueEnd : Fin 6 → ℕ
  /-- Per lane, end of block: getLastStepMeanSpeed (raw, may be negative). -/
  laneSpeedEnd : Fin 6 → ℚ
  /-- Per lane, end of block: getWaitingTime. -/
  laneWaitEnd : Fin 6 → ℚ
  /-- Per edge, end of block: sum of getLastStepHaltingNumber over its lanes. -/
  edgeQueueEnd : Fin 4 → ℕ
  /-- Per edge, end of block: sum of getWaitingTime over its lanes. -/
  edgeWaitTotalEnd : Fin 4 → ℚ
  /-- Per edge: getLaneNumber. -/
  edgeLaneCount : Fin 4 → ℕ
  /-- Per edge, end of block: an emergency-type vehicle is on the edge. -/
  emergFlagsEnd : Fin 4 → Bool
  /-- getMinExpectedNumber re-queried for the done check after the loop. -/
  minExpectedEnd : ℕ

/-- TrafficEnv collect_edge_metrics for one edge (source lines 649 to
671): queue is the lane-halting sum, wait is the lane-wait sum divided
by max(lane count, 1).  A TraCI failure leaves the zero totals, which
the oracle represents directly. -/
def collectEdgeMetrics (tr : SimTrace) (e : Fin 4) : ℚ × ℚ :=
  ((tr.edgeQueueEnd e : ℚ), tr.edgeWaitTotalEnd e / ((max (tr.edgeLaneCount e) 1 : ℕ) : ℚ))

/-! ### State encoder (TrafficEnv build_state) -/

/-- The phase_vec local of build_state: one-hot encoding of the current
phase over the six phase slots. -/
def phaseOneHot (phase : ℕ) : List ℚ :=
  (List.range NUM_PHASES).map fun p => if p = phase then (1 : ℚ) else 0

/-- The t_norm local of build_state: normalised time in phase, the only
clipped component (min with 1). -/
def phaseTimeNorm (phaseTimer : ℕ) : ℚ :=
  min ((phaseTimer : ℚ) / MAX_PHASE_T) 1

/-- The emerg_flags local of build_state (get_emergency_flags, source
lines 673 to 684): a binary flag per approach. -/
def emergencyFlagVec (emergFlags : Fin 4 → Bool) : List ℚ :=
  INCOMING_EDGES.map fun e => if emergFlags e then (1 : ℚ) else 0

/-- TrafficEnv build_state (source lines 422 to 454), composed with
collect_lane_metrics (lines 632 to 647): the 33-dimensional state
vector.  collect_lane_metrics clamps the raw mean speed at zero
(max(0.0, s)) and passes queue and wait through unchanged; build_state
divides each metric by its calibration constant with no clipping, and
only the phase-time component is clipped at 1. -/
def buildState (phase phaseTimer : ℕ)
    (laneQueue : Fin 6 → ℕ) (laneSpeedRaw : Fin 6 → ℚ) (laneWait : Fin 6 → ℚ)
    (edgeQueue : Fin 4 → ℕ) (emergFlags : Fin 4 → Bool) : List ℚ :=
  (INCOMING_LANES.map fun l => (laneQueue l : ℚ) / MAX_QUEUE_LANE)
  ++ (INCOMING_LANES.map fun l => max 0 (laneSpeedRaw l) / MAX_SPEED)
  ++ (INCOMING_LANES.map fun l => laneWait l / MAX_WAIT)
  ++ (INCOMING_EDGES.map fun e => (edgeQueue e : ℚ) / MAX_QUEUE)
  ++ phaseOneHot phase
  ++ [phaseTimeNorm phaseTimer]
  ++ emergencyFlagVec emergFlags

/-! ### Reward model (TrafficEnv compute_reward) -/

/-- Queue growth term of compute_reward (source lines 486 to 487):
penalise growth only, no bonus for shrinkage. -/
def queueDeltaTerm (totalQueue prevTotalQueue : ℚ) : ℚ :=
  -W_QUEUE_DELTA * max 0 (totalQueue - prevTotalQueue)

/-- Flicker term of compute_reward (source lines 495 to 496). -/
def flickerTerm (switchedTooSoon : Bool) : ℚ :=
  if switchedTooSoon then -W_FLICKER else 0

/-- TrafficEnv compute_reward (source lines 458 to 516).  `stdFn`
stands for np.std on the queue distribution; the empty-or-None test on
the wait distribution is the Python truthiness test. -/
def computeReward (stdFn : List ℚ → ℚ)
    (totalQueue prevTotalQueue : ℚ) (nArrived nEmergWaiting : ℕ)
    (switchedTooSoon : Bool) (queueDistribution : List ℚ)
    (waitDistribution : Option (List ℚ)) : ℚ :=
  let rAbs := -W_QUEUE_ABS * totalQueue
  let rDelta := queueDeltaTerm totalQueue prevTotalQueue
  let rThru := W_ARRIVED * (nArrived : ℚ)
  let rEmerg := -W_EMERGENCY * (nEmergWaiting : ℚ)
  let rFlick := flickerTerm switchedTooSoon
  let rBalance :=
    if 0 < totalQueue then
      let meanQ := totalQueue / ((max queueDistribution.length 1 : ℕ) : ℚ)
      let stdQ := stdFn queueDistribution
      W_BALANCE * max 0 (1 - stdQ / (meanQ + 1))
    else W_BALANCE
  let rMaxWait :=
    match waitDistribution with
    | none => 0
    | some [] => 0
    | some (w :: ws) => -W_MAX_WAIT * max 0 (ws.foldl max w - FAIR_WAIT_THRESH)
  rAbs + rDelta + rThru + rEmerg + rFlick + rBalance + rMaxWait

/-! ### The inner simulation block of TrafficEnv.step -/

/-- Accumulator of the inner loop of step: controller state plus the
block-level arrival count and the running maximum of halted emergency
vehicles. -/
structure BlockAcc where
  env : EnvState
  blockArrived : ℕ
  blockEmergMax : ℕ
  deriving DecidableEq

/-- Yellow handling at the top of each inner iteration (source lines
317 to 320): decrement the countdown and complete the switch when it
reaches zero. -/
def yellowTick (env : EnvState) : EnvState :=
  if env.inYellow then
    let env := { env with yellowCountdown := env.yellowCountdown - 1 }
    if env.yellowCountdown ≤ 0 then completeSwitch env else env
  else env

/-- One iteration of the inner loop of step (source lines 315 to 342),
minus the break test: yellow handling, one simulation step (the oracle
advances), then the per-step metric accumulation. -/
def innerStep (tr : SimTrace) (acc : BlockAcc) (i : ℕ) : BlockAcc :=
  let env := yellowTick acc.env
  let env := { env with simStep := env.simStep + 1, phaseTimer := env.phaseTimer + 1 }
  { env := env
    blockArrived := acc.blockArrived + tr.arrivedAt i
    blockEmergMax := max acc.blockEmergMax (tr.emergHaltedAt i) }

/-- The inner loop of step over the listed iteration indices, with the
early break when the simulation runs out of vehicles (source line 341,
tested at the end of each iteration body). -/
def runBlock (tr : SimTrace) : BlockAcc → List ℕ → BlockAcc
  | acc, [] => acc
  | acc, i :: rest =>
    let acc := innerStep tr acc i
    if tr.minExpectedAt i = 0 then acc else runBlock tr acc rest

/-- The switched_too_soon flag of step (source lines 359 to 363): note
that the source evaluates it after the inner loop, on the phase and
phase timer as they stand at the end of the block. -/
def switchedTooSoonFlag (action : ℕ) (preempted : Bool) (env : EnvState) : Bool :=
  action != ACTION_HOLD && !preempted &&
    decide (env.phaseTimer <
      (if env.phase = NS_LEFT ∨ env.phase = EW_LEFT then MIN_GREEN_LEFT
       else MIN_GREEN_THROUGH))

/-! ### TrafficEnv.step -/

/-- Outputs of one TrafficEnv.step call: the return tuple (next state,
reward, done) plus the diagnostic info fields a later claim reads and
the resulting environment object state. -/
structure StepResult where
  nextState : List ℚ
  reward : ℚ
  done : Bool
  infoArrivedBlock : ℕ
  infoPreempted : Bool
  infoAvgWait : ℚ
  env : EnvState
  deriving DecidableEq

/-- TrafficEnv.step (source lines 274 to 395): the safety layer and the
agent decision, DECISION_INTERVAL inner simulation steps, end-of-block
edge metrics, reward, episode statistics, termination test, and the
next state vector. -/
def step (stdFn : List ℚ → ℚ) (env0 : EnvState) (action : ℕ) (tr : SimTrace) : StepResult :=
  let pd := applyDecision env0 action tr.emergAtDecision
  let preempted := pd.2
  let acc := runBlock tr ⟨pd.1, 0, 0⟩ (List.range DECISION_INTERVAL)
  let env2 := acc.env
  let finalQueues := INCOMING_EDGES.map fun e => (collectEdgeMetrics tr e).1
  let finalWaits := INCOMING_EDGES.map fun e => (collectEdgeMetrics tr e).2
  let totalQueue := finalQueues.sum
  let env3 := { env2 with totalArrived := env2.totalArrived + acc.blockArrived }
  let reward := computeReward stdFn totalQueue env2.prevTotalQueue acc.blockArrived
    acc.blockEmergMax (switchedTooSoonFlag action preempted env2) finalQueues
    (some finalWaits)
  let env4 := { env3 with prevTotalQueue := totalQueue }
  let avgWait := finalWaits.sum / (finalWaits.length : ℚ)
  let env5 := { env4 with
      episodeRewards := env4.episodeRewards ++ [reward]
      episodeQueues := env4.episodeQueues ++ [totalQueue]
      episodeWaits := env4.episodeWaits ++ [avgWait] }
  let done := decide (SIM_DURATION ≤ env5.simStep) || decide (tr.minExpectedEnd = 0)
  let nextState := buildState env5.phase env5.phaseTimer tr.laneQueueEnd tr.laneSpeedEnd
    tr.laneWaitEnd tr.edgeQueueEnd tr.emergFlagsEnd
  ⟨nextState, reward, done, acc.blockArrived, preempted, avgWait, env5⟩

/-! ### dqn_agent.py: hyperparameters -/

/-- DQNAgent.GAMMA (0.95). -/
def GAMMA : ℚ := 19 / 20
/-- DQNAgent.EPSILON_START (1.0). -/
def EPSILON_START : ℚ := 1
/-- DQNAgent.EPSILON_MIN (0.05). -/
def EPSILON_MIN : ℚ := 1 / 20
/-- DQNAgent.EPSILON_DECAY (0.92). -/
def EPSILON_DECAY : ℚ := 23 / 25

/-! ### dqn_agent.py: replay buffer -/

/-- One stored transition (the 5-tuple pushed by ReplayBuffer.push
after its dtype conversions). -/
structure Transition where
  state : List ℚ
  action : ℤ
  reward : ℚ
  nextState : List ℚ
  done : Bool
  deriving DecidableEq

instance : Inhabited Transition := ⟨⟨[], 0, 0, [], false⟩⟩

/-- ReplayBuffer.push on a deque with maxlen `capacity` (source lines
76 to 91): append, evicting from the left when full.  Written as one
drop so that a zero capacity behaves like the Python deque as well. -/
def pushBuf (capacity : ℕ) (buf : List Transition) (t : Transition) : List Transition :=
  (buf ++ [t]).drop (buf.length + 1 - capacity)

/-- A sequence of pushes, oldest first. -/
def pushMany (capacity : ℕ) (buf : List Transition) (ts : List Transition) : List Transition :=
  ts.foldl (pushBuf capacity) buf

/-- The exception Python raises out of ReplayBuffer.sample (ValueError,
both from random.sample on an oversized request and from unpacking an
empty zip). -/
inductive PyError where
  | valueError
  deriving DecidableEq

/-- The five batched arrays ReplayBuffer.sample returns. -/
structure SampleBatch where
  states : List (List ℚ)
  actions : List ℤ
  rewards : List ℚ
  nextStates : List (List ℚ)
  dones : List Bool
  deriving DecidableEq

/-- ReplayBuffer.sample (source lines 93 to 103).  random.sample is
modelled by the index list `picks` its generator produces: the library
guarantees `batchSize` distinct in-range indices when the population is
large enough, and raises ValueError otherwise; zip(*batch) unpacked
into five names raises ValueError when the batch is empty. -/
def sampleBuf (buf : List Transition) (batchSize : ℕ) (picks : List ℕ) :
    Except PyError SampleBatch :=
  if buf.length < batchSize then .error .valueError
  else
    let batch := picks.map fun i => buf.getD i default
    if batch.isEmpty then .error .valueError
    else
      .ok ⟨batch.map (·.state), batch.map (·.action), batch.map (·.reward),
        batch.map (·.nextState), batch.map (·.done)⟩

/-! ### dqn_agent.py: the Double-DQN bootstrap target of learn -/

/-- First index attaining the maximum, scanning left to right with
strict improvement — torch.argmax on a vector. -/
def argmaxGo : ℕ → ℕ → ℚ → List ℚ → ℕ
  | _, best, _, [] => best
  | i, best, bestV, x :: xs =>
    if bestV < x then argmaxGo (i + 1) i x xs else argmaxGo (i + 1) best bestV xs

/-- torch.argmax over a Q-value vector (index of the first maximum). -/
def argmaxIdx : List ℚ → ℕ
  | [] => 0
  | x :: xs => argmaxGo 1 0 x xs

/-- The float the stored done flag becomes in the sampled batch. -/
def doneFlag (d : Bool) : ℚ := if d then 1 else 0

/-- The no-grad target block of DQNAgent.learn (source lines 245 to
250): per sampled transition, the policy net selects the arg-max next
action, the target net evaluates it, and the bootstrap target is
reward + GAMMA * q_next * (1 - done). -/
def qTargetBatch (policyNet targetNet : List ℚ → List ℚ) (batch : List Transition) : List ℚ :=
  batch.map fun t =>
    let bestAction := argmaxIdx (policyNet t.nextState)
    let qNext := (targetNet t.nextState).getD bestAction 0
    t.reward + GAMMA * qNext * (1 - doneFlag t.done)

/-! ### dqn_agent.py: epsilon decay -/

/-- DQNAgent.decay_epsilon (source lines 266 to 268). -/
def decayEpsilon (eps : ℚ) : ℚ := max EPSILON_MIN (eps * EPSILON_DECAY)

/-- Epsilon after k successive decay_epsilon calls from EPSILON_START. -/
def epsilonAfter (k : ℕ) : ℚ := decayEpsilon^[k] EPSILON_START

/-! ### Replay buffer ring semantics (claim C5) -/

/-- A push sequence on the bounded deque is a right-suffix: pushing
`ts` after `buf` keeps exactly the last `capacity` elements of
`buf ++ ts`, in order. -/
lemma pushMany_eq_drop (c : ℕ) :
    ∀ (ts buf : List Transition), buf.length ≤ c →
      pushMany c buf ts = (buf ++ ts).drop (buf.length + ts.length - c) := by
  intro ts
  induction ts with
  | nil =>
    intro buf h
    simp [pushMany, Nat.sub_eq_zero_of_le h]
  | cons t ts ih =>
    intro buf h
    have hb : (pushBuf c buf t).length = buf.length + 1 - (buf.length + 1 - c) := by
      simp [pushBuf]
    have hble : (pushBuf c buf t).length ≤ c := by omega
    have h1 : pushMany c buf (t :: ts) = pushMany c (pushBuf c buf t) ts := rfl
    rw [h1, ih _ hble]
    have hd : buf.length + 1 - c ≤ (buf ++ [t]).length := by
      simp only [List.length_append, List.length_singleton]
      omega
    show (((buf ++ [t]).drop (buf.length + 1 - c)) ++ ts).drop
        ((pushBuf c buf t).length + ts.length - c) = _
    rw [← List.drop_append_of_le_length hd, List.drop_drop,
      List.append_assoc, List.singleton_append]
    congr 1
    simp only [List.length_cons]
    omega

/-- C5: the replay buffer is a fixed-capacity ring: for every sequence
of pushes into an initially empty buffer of capacity c, the resulting
length never exceeds c, and after pushing c + k transitions the buffer
holds exactly the last c transitions pushed, in insertion order (the
oldest k evicted). -/
theorem replay_buffer_ring (c : ℕ) (ts : List Transition) :
    (pushMany c [] ts).length ≤ c ∧
    ∀ k, ts.length = c + k → pushMany c [] ts = ts.drop k := by
  have hmain := pushMany_eq_drop c ts [] (by simp)
  simp only [List.nil_append, List.length_nil, Nat.zero_add] at hmain
  constructor
  · rw [hmain, List.length_drop]
    omega
  · intro k hk
    rw [hmain]
    congr 1
    omega

/-- Witness for C5: capacity 3, push four transitions A, B, C, D (tagged
by reward 1, 2, 3, 4): the buffer holds exactly B, C, D. -/
theorem replay_buffer_ring_witness :
    ([(⟨[], 0, 1, [], false⟩ : Transition), ⟨[], 0, 2, [], false⟩,
        ⟨[], 0, 3, [], false⟩, ⟨[], 0, 4, [], false⟩].length = 3 + 1) ∧
    pushMany 3 [] [⟨[], 0, 1, [], false⟩, ⟨[], 0, 2, [], false⟩,
        ⟨[], 0, 3, [], false⟩, ⟨[], 0, 4, [], false⟩] =
      [⟨[], 0, 2, [], false⟩, ⟨[], 0, 3, [], false⟩, ⟨[], 0, 4, [], false⟩] :=
  ⟨rfl, (replay_buffer_ring 3 _).2 1 rfl⟩

/-! ### Queue-delta reward asymmetry (claim C6) -/

/-- C6: the queue-delta reward term penalises growth only: it equals
minus W_QUEUE_DELTA times the queue increase when the total queue grew
since the previous decision block, and is exactly zero when the total
queue is unchanged or shrank. -/
theorem queue_delta_growth_only (tq ptq : ℚ) :
    (ptq < tq → queueDeltaTerm tq ptq = -W_QUEUE_DELTA * (tq - ptq)) ∧
    (tq ≤ ptq → queueDeltaTerm tq ptq = 0) := by
  constructor
  · intro h
    unfold queueDeltaTerm
    rw [max_eq_right (by linarith)]
  · intro h
    unfold queueDeltaTerm
    rw [max_eq_left (by linarith)]
    ring

/-- Witness for C6: a growth of 6 is charged at weight W_QUEUE_DELTA, a
shrink from 10 to 4 earns nothing. -/
theorem queue_delta_growth_only_witness :
    queueDeltaTerm 10 4 = -W_QUEUE_DELTA * (10 - 4) ∧ queueDeltaTerm 4 10 = 0 :=
  ⟨(queue_delta_growth_only 10 4).1 (by norm_num),
   (queue_delta_growth_only 4 10).2 (by norm_num)⟩

/-! ### Minimum-hold gate (claim C7) -/

/-- C7: can_switch is false during any yellow, false at elapsed time
zero, and on a green phase outside yellow it is true exactly when the
elapsed time reaches the minimum hold of that phase: 15 seconds for the
through phases and 8 seconds for the left-turn phases. -/
theorem min_hold_gate (env : EnvState) :
    (env.inYellow = true → canSwitch env = false) ∧
    (env.phaseTimer = 0 → canSwitch env = false) ∧
    (env.inYellow = false → env.phase = NS_THROUGH ∨ env.phase = EW_THROUGH →
      (canSwitch env = true ↔ MIN_GREEN_THROUGH ≤ env.phaseTimer)) ∧
    (env.inYellow = false → env.phase = NS_LEFT ∨ env.phase = EW_LEFT →
      (canSwitch env = true ↔ MIN_GREEN_LEFT ≤ env.phaseTimer)) := by
  refine ⟨?_, ?_, ?_, ?_⟩
  · intro h
    simp [canSwitch, h]
  · intro h
    unfold canSwitch
    split
    · rfl
    · rw [h]
      show decide ((if env.phase = NS_LEFT ∨ env.phase = EW_LEFT then MIN_GREEN_LEFT
        else MIN_GREEN_THROUGH) ≤ 0) = false
      split <;> rfl
  · intro hy hp
    have hg : env.phase ∈ GREEN_PHASES := by
      rcases hp with h | h <;> rw [h] <;>
        simp [GREEN_PHASES, NS_THROUGH, EW_THROUGH, NS_LEFT, EW_LEFT]
    have hnl : ¬(env.phase = NS_LEFT ∨ env.phase = EW_LEFT) := by
      rcases hp with h | h <;> rw [h] <;> simp [NS_THROUGH, EW_THROUGH, NS_LEFT, EW_LEFT]
    simp [canSwitch, hy, hg, hnl]
  · intro hy hp
    have hg : env.phase ∈ GREEN_PHASES := by
      rcases hp with h | h <;> rw [h] <;>
        simp [GREEN_PHASES, NS_THROUGH, EW_THROUGH, NS_LEFT, EW_LEFT]
    have hnl : env.phase = NS_LEFT ∨ env.phase = EW_LEFT := hp
    simp [canSwitch, hy, hg, hnl]

/-- Witness for C7: a through green held 14 seconds cannot switch, held
15 seconds it can. -/
theorem min_hold_gate_witness :
    canSwitch ⟨NS_THROUGH, 14, false, 0, NS_THROUGH, 0, 0, 0, [], [], []⟩ = false ∧
    canSwitch ⟨NS_THROUGH, 15, false, 0, NS_THROUGH, 0, 0, 0, [], [], []⟩ = true := by
  have h14 := (min_hold_gate ⟨NS_THROUGH, 14, false, 0, NS_THROUGH, 0, 0, 0, [], [], []⟩).2.2.1
    rfl (Or.inl rfl)
  have h15 := (min_hold_gate ⟨NS_THROUGH, 15, false, 0, NS_THROUGH, 0, 0, 0, [], [], []⟩).2.2.1
    rfl (Or.inl rfl)
  constructor
  · cases hb : canSwitch ⟨NS_THROUGH, 14, false, 0, NS_THROUGH, 0, 0, 0, [], [], []⟩
    · rfl
    · exact absurd (h14.mp hb) (by norm_num [MIN_GREEN_THROUGH])
  · exact h15.mpr (by norm_num [MIN_GREEN_THROUGH])

/-! ### Epsilon decay closed form (claim C10) -/

/-- C10: after k successive decay_epsilon calls starting from
EPSILON_START, epsilon equals max(EPSILON_MIN, EPSILON_START times
EPSILON_DECAY to the k), and in particular never falls below
EPSILON_MIN. -/
theorem epsilon_decay_closed_form (k : ℕ) :
    epsilonAfter k = max EPSILON_MIN (EPSILON_START * EPSILON_DECAY ^ k) ∧
    EPSILON_MIN ≤ epsilonAfter k := by
  have hmain : ∀ n : ℕ, epsilonAfter n = max EPSILON_MIN (EPSILON_START * EPSILON_DECAY ^ n) := by
    intro n
    induction n with
    | zero =>
      show EPSILON_START = max EPSILON_MIN (EPSILON_START * EPSILON_DECAY ^ 0)
      rw [pow_zero, mul_one, max_eq_right (by norm_num [EPSILON_MIN, EPSILON_START])]
    | succ n ih =>
      have hstep : epsilonAfter (n + 1) = decayEpsilon (epsilonAfter n) := by
        simp [epsilonAfter, Function.iterate_succ_apply']
      rw [hstep, ih, decayEpsilon,
        max_mul_of_nonneg _ _ (by norm_num [EPSILON_DECAY] : (0 : ℚ) ≤ EPSILON_DECAY),
        ← max_assoc,
        max_eq_left (mul_le_of_le_one_right (by norm_num [EPSILON_MIN])
          (by norm_num [EPSILON_DECAY])),
        pow_succ, mul_assoc]
  exact ⟨hmain k, hmain k ▸ le_max_left _ _⟩

/-- Witness for C10 at k = 2. -/
theorem epsilon_decay_closed_form_witness :
    epsilonAfter 2 = max EPSILON_MIN (EPSILON_START * EPSILON_DECAY ^ 2) :=
  (epsilon_decay_closed_form 2).1

/-! ### Double-DQN bootstrap target (claim C3) -/

/-- C3: for every sampled transition, the Double-DQN bootstrap target
equals reward + GAMMA * target_net(next_state)[argmax of
policy_net(next_state)] * (1 - terminal flag), and for a terminal
transition it equals the reward exactly, independent of either network
output. -/
theorem double_dqn_target (policyNet targetNet : List ℚ → List ℚ)
    (batch : List Transition) (i : ℕ) (tr : Transition)
    (h : batch[i]? = some tr) :
    (qTargetBatch policyNet targetNet batch)[i]? =
      some (tr.reward +
        GAMMA * ((targetNet tr.nextState).getD (argmaxIdx (policyNet tr.nextState)) 0) *
          (1 - doneFlag tr.done)) ∧
    (tr.done = true → (qTargetBatch policyNet targetNet batch)[i]? = some tr.reward) := by
  have h1 : (qTargetBatch policyNet targetNet batch)[i]? =
      some (tr.reward +
        GAMMA * ((targetNet tr.nextState).getD (argmaxIdx (policyNet tr.nextState)) 0) *
          (1 - doneFlag tr.done)) := by
    unfold qTargetBatch
    rw [List.getElem?_map, h]
    rfl
  refine ⟨h1, fun hd => ?_⟩
  rw [h1, hd]
  simp [doneFlag]

/-- Witness for C3: one transition with reward 3, policy output [1, 2]
(arg max 1), target output [5, 7]: the target is 3 + (19/20) * 7 =
193/20. -/
theorem double_dqn_target_witness :
    ([(⟨[], 0, 3, [2], false⟩ : Transition)][0]? = some ⟨[], 0, 3, [2], false⟩) ∧
    (qTargetBatch (fun _ => [1, 2]) (fun _ => [5, 7]) [⟨[], 0, 3, [2], false⟩])[0]? =
      some (193 / 20) := by
  refine ⟨rfl, ?_⟩
  have h := (double_dqn_target (fun _ => [1, 2]) (fun _ => [5, 7])
    [⟨[], 0, 3, [2], false⟩] 0 ⟨[], 0, 3, [2], false⟩ rfl).1
  rw [h]
  norm_num [GAMMA, doneFlag, argmaxIdx, argmaxGo, List.getD]

/-! ### Replay sampling contract (claim C9) -/

/-- C9 counterexample: with one stored transition, sample(0) satisfies
0 ≤ buffer length but still raises ValueError (unpacking the empty
zip), instead of returning zero transitions. -/
theorem sample_zero_errors :
    0 ≤ ([(⟨[], 0, 1, [], false⟩ : Transition)]).length ∧
    sampleBuf [⟨[], 0, 1, [], false⟩] 0 [] = .error .valueError :=
  ⟨Nat.zero_le _, rfl⟩

/-- C9 amended: sample with 1 ≤ n ≤ len and the n distinct in-range
indices the generator draws returns the selected transitions split by
field into five batched arrays, each selected transition stored in the
buffer; sample with n greater than the buffer length raises ValueError
(and so does n = 0, by the counterexample). -/
theorem sample_contract (buf : List Transition) (n : ℕ) (picks : List ℕ) :
    (buf.length < n → sampleBuf buf n picks = .error .valueError) ∧
    (1 ≤ n → n ≤ buf.length → picks.length = n → picks.Nodup →
      (∀ i ∈ picks, i < buf.length) →
      sampleBuf buf n picks =
        .ok ⟨(picks.map fun i => buf.getD i default).map (·.state),
             (picks.map fun i => buf.getD i default).map (·.action),
             (picks.map fun i => buf.getD i default).map (·.reward),
             (picks.map fun i => buf.getD i default).map (·.nextState),
             (picks.map fun i => buf.getD i default).map (·.done)⟩ ∧
      (picks.map fun i => buf.getD i default).length = n ∧
      (∀ t ∈ picks.map fun i => buf.getD i default, t ∈ buf)) := by
  constructor
  · intro h
    unfold sampleBuf
    rw [if_pos h]
  · intro h1 h2 hlen hnd hin
    have hnlt : ¬(buf.length < n) := by omega
    have hne : (picks.map fun i => buf.getD i default).isEmpty = false := by
      rcases picks with _ | ⟨p, ps⟩
      · simp at hlen
        omega
      · simp
    refine ⟨?_, ?_, ?_⟩
    · unfold sampleBuf
      rw [if_neg hnlt]
      simp only [hne, Bool.false_eq_true, if_false]
    · simp [hlen]
    · intro ttr htr
      simp only [List.mem_map] at htr
      obtain ⟨i, hi, rfl⟩ := htr
      have hlt := hin i hi
      rw [List.getD_eq_getElem?_getD, List.getElem?_eq_getElem hlt]
      exact List.getElem_mem hlt

/-- Witness for C9 amended: two stored transitions, n = 1, index 1
drawn: the call returns the five singleton arrays of the second
transition. -/
theorem sample_contract_witness :
    sampleBuf [⟨[], 0, 1, [], false⟩, ⟨[], 0, 2, [], false⟩] 1 [1] =
      .ok ⟨[[]], [0], [2], [[]], [false]⟩ :=
  ((sample_contract [⟨[], 0, 1, [], false⟩, ⟨[], 0, 2, [], false⟩] 1 [1]).2
    (by norm_num) (by norm_num) rfl (by simp) (by simp)).1

/-! ### State vector bounds (claim C2) -/

/-- C2 counterexample: a lane queue of 30 (above the calibration
maximum 25) yields the state component 30/25 = 6/5, strictly above 1:
build_state does not clip the metric components, so the vector is not
contained in [0, 1]. -/
theorem state_not_clipped :
    ∃ x ∈ buildState 0 0 (fun l => if l = 0 then 30 else 0) (fun _ => 0) (fun _ => 0)
        (fun _ => 0) (fun _ => false), 1 < x := by
  refine ⟨6 / 5, ?_, by norm_num⟩
  have hm : (6 / 5 : ℚ) ∈ (INCOMING_LANES.map fun l =>
      (((if l = 0 then 30 else 0 : ℕ)) : ℚ) / MAX_QUEUE_LANE) := by
    simp only [INCOMING_LANES, List.map_cons, List.map_nil, MAX_QUEUE_LANE]
    norm_num
  unfold buildState
  exact List.mem_append_left _ (List.mem_append_left _ (List.mem_append_left _
    (List.mem_append_left _ (List.mem_append_left _ (List.mem_append_left _ hm)))))

/-- C2 amended: every component of the state vector is nonnegative
(given the simulator invariant that lane waiting times are
nonnegative), the vector has length 33, and the one-hot phase,
normalised phase-time, and emergency-flag components are additionally
at most 1; the 22 metric components are the raw values divided by
their calibration constants with no upper clipping, so they exceed 1
exactly when the raw value exceeds its calibration maximum (see the
counterexample). -/
theorem state_vector_bounds (phase timer : ℕ) (laneQ : Fin 6 → ℕ)
    (laneS laneW : Fin 6 → ℚ) (edgeQ : Fin 4 → ℕ) (emerg : Fin 4 → Bool)
    (hw : ∀ l, 0 ≤ laneW l) :
    (∀ x ∈ buildState phase timer laneQ laneS laneW edgeQ emerg, 0 ≤ x) ∧
    (buildState phase timer laneQ laneS laneW edgeQ emerg).length = 33 ∧
    (∀ x ∈ phaseOneHot phase ++ [phaseTimeNorm timer] ++ emergencyFlagVec emerg, x ≤ 1) := by
  refine ⟨?_, ?_, ?_⟩
  · intro x hx
    simp only [buildState, phaseOneHot, emergencyFlagVec, List.mem_append, List.mem_map,
      List.mem_singleton, List.mem_range] at hx
    rcases hx with ((((((⟨l, _, rfl⟩ | ⟨l, _, rfl⟩) | ⟨l, _, rfl⟩) | ⟨e, _, rfl⟩) |
      ⟨p, _, rfl⟩) | rfl) | ⟨e, _, rfl⟩)
    · exact div_nonneg (Nat.cast_nonneg _) (by norm_num [MAX_QUEUE_LANE])
    · exact div_nonneg (le_max_left 0 _) (by norm_num [MAX_SPEED])
    · exact div_nonneg (hw l) (by norm_num [MAX_WAIT])
    · exact div_nonneg (Nat.cast_nonneg _) (by norm_num [MAX_QUEUE])
    · split <;> norm_num
    · exact le_min (div_nonneg (Nat.cast_nonneg _) (by norm_num [MAX_PHASE_T])) (by norm_num)
    · split <;> norm_num
  · simp [buildState, phaseOneHot, emergencyFlagVec, INCOMING_LANES, INCOMING_EDGES,
      NUM_PHASES]
  · intro x hx
    simp only [phaseOneHot, emergencyFlagVec, List.mem_append, List.mem_map,
      List.mem_singleton, List.mem_range] at hx
    rcases hx with ((⟨p, _, rfl⟩ | rfl) | ⟨e, _, rfl⟩)
    · split <;> norm_num
    · exact min_le_right _ _
    · split <;> norm_num

/-- Witness for C2 amended, at the all-zero metric input with phase
NS_THROUGH and timer 7. -/
theorem state_vector_bounds_witness :
    (∀ x ∈ buildState 0 7 (fun _ => 0) (fun _ => 0) (fun _ => 0)
        (fun _ => 0) (fun _ => false), 0 ≤ x) ∧
    (buildState 0 7 (fun _ => 0) (fun _ => 0) (fun _ => 0)
        (fun _ => 0) (fun _ => false)).length = 33 ∧
    (∀ x ∈ phaseOneHot 0 ++ [phaseTimeNorm 7] ++ emergencyFlagVec (fun _ => false), x ≤ 1) :=
  state_vector_bounds 0 7 (fun _ => 0) (fun _ => 0) (fun _ => 0) (fun _ => 0)
    (fun _ => false) (fun _ => le_refl 0)

/-! ### Emergency preemption (claims C1 and C8) -/

/-- A successful preemption scan exhibits an edge of the scan list that
carries a non-served emergency, and the forced phase is the head of
that edge's serving-green list. -/
lemma scanPreempt_spec (env : EnvState) (emerg : Fin 4 → Bool) :
    ∀ l : List (Fin 4), (scanPreempt env emerg l).1 = true →
      ∃ e ∈ l, emerg e = true ∧ alreadyServing env e = false ∧
        (scanPreempt env emerg l).2 = some (EDGE_TO_GREENS e).headI := by
  intro l
  induction l with
  | nil => intro h; simp [scanPreempt] at h
  | cons e rest ih =>
    intro h
    by_cases hc : (emerg e && !alreadyServing env e) = true
    · rw [Bool.and_eq_true, Bool.not_eq_true'] at hc
      refine ⟨e, List.mem_cons_self e rest, hc.1, hc.2, ?_⟩
      simp [scanPreempt, hc.1, hc.2]
    · have hc' : (emerg e && !alreadyServing env e) = false := by
        cases hcc : (emerg e && !alreadyServing env e)
        · rfl
        · exact absurd hcc hc
      have hrec : scanPreempt env emerg (e :: rest) = scanPreempt env emerg rest := by
        simp [scanPreempt, hc']
      rw [hrec] at h
      obtain ⟨f, hf, h1, h2, h3⟩ := ih h
      exact ⟨f, List.mem_cons_of_mem e hf, h1, h2, by rw [hrec]; exact h3⟩

/-- The head of each serving-green list is a through phase contained in
the list. -/
lemma headI_EDGE_TO_GREENS (e : Fin 4) :
    ((EDGE_TO_GREENS e).headI = NS_THROUGH ∨ (EDGE_TO_GREENS e).headI = EW_THROUGH) ∧
    (EDGE_TO_GREENS e).headI ∈ EDGE_TO_GREENS e := by
  unfold EDGE_TO_GREENS
  split <;> simp

/-- If the greens serving an edge are not already serving and no yellow
is in progress, the active phase is outside the serving-green list. -/
lemma phase_notin_of_not_serving (env : EnvState) (e : Fin 4)
    (hs : alreadyServing env e = false) : env.phase ∉ EDGE_TO_GREENS e := by
  intro hmem
  unfold alreadyServing at hs
  rw [Bool.or_eq_false_iff] at hs
  have hc : (EDGE_TO_GREENS e).contains env.phase = true := by
    rw [List.contains_eq_any_beq]
    simp only [List.any_eq_true]
    exact ⟨env.phase, hmem, by simp⟩
  rw [hs.1] at hc
  exact Bool.false_ne_true hc

/-- When preemption fires, the decision stage never consults the
requested action. -/
lemma applyDecision_preempt (env : EnvState) (emerg : Fin 4 → Bool)
    (hp : (checkEmergencyPreemption env emerg).1 = true) (a b : ℕ) :
    applyDecision env a emerg = applyDecision env b emerg := by
  simp [applyDecision, hp]

/-- The preempted flag the decision stage returns is the scan outcome. -/
lemma applyDecision_snd (env : EnvState) (a : ℕ) (emerg : Fin 4 → Bool) :
    (applyDecision env a emerg).2 = (checkEmergencyPreemption env emerg).1 := rfl

/-- The switched-too-soon flag is false whenever the block was
preempted, whatever the action. -/
lemma switchedTooSoonFlag_preempted (a : ℕ) (env : EnvState) :
    switchedTooSoonFlag a true env = false := by
  simp [switchedTooSoonFlag]

/-- C1 amended: whenever the preemption scan fires, the decision stage
is independent of the requested action (the action is silently
discarded); and if in addition the current phase is a green whose
minimum hold has elapsed (can_switch), the controller initiates a
transition: it enters yellow with queued target the through green phase
serving an approach that carries a non-served emergency vehicle.  When
can_switch is false (minimum hold not elapsed, or a yellow already in
progress), no transition is initiated in that call (see the
counterexample to the unconditional claim). -/
theorem emergency_preemption_override (env : EnvState) (a a' : ℕ) (emerg : Fin 4 → Bool)
    (hp : (checkEmergencyPreemption env emerg).1 = true) :
    applyDecision env a emerg = applyDecision env a' emerg ∧
    (canSwitch env = true →
      ∃ e : Fin 4, emerg e = true ∧ alreadyServing env e = false ∧
        ((EDGE_TO_GREENS e).headI = NS_THROUGH ∨ (EDGE_TO_GREENS e).headI = EW_THROUGH) ∧
        applyDecision env a emerg = (initiateSwitch env (EDGE_TO_GREENS e).headI, true) ∧
        (applyDecision env a emerg).1.inYellow = true ∧
        (applyDecision env a emerg).1.nextGreen = (EDGE_TO_GREENS e).headI) := by
  refine ⟨applyDecision_preempt env emerg hp a a', fun hcs => ?_⟩
  obtain ⟨e, _, he, hs, hsome⟩ := scanPreempt_spec env emerg INCOMING_EDGES hp
  have hnotin : env.phase ∉ EDGE_TO_GREENS e := phase_notin_of_not_serving env e hs
  have hne : (EDGE_TO_GREENS e).headI ≠ env.phase := by
    intro hEq
    exact hnotin (hEq ▸ (headI_EDGE_TO_GREENS e).2)
  have hbne : ((EDGE_TO_GREENS e).headI != env.phase) = true := bne_iff_ne.mpr hne
  have hsome' : (checkEmergencyPreemption env emerg).2 = some (EDGE_TO_GREENS e).headI := hsome
  have happ : applyDecision env a emerg = (initiateSwitch env (EDGE_TO_GREENS e).headI, true) := by
    unfold applyDecision
    simp [hp, hsome', hbne, hcs]
  refine ⟨e, he, hs, (headI_EDGE_TO_GREENS e).1, happ, ?_, ?_⟩
  · rw [happ]
    rfl
  · rw [happ]
    rfl

/-- A stand-in for np.std; the concrete evaluations below all have zero
total queue, so the balance branch never consults it. -/
def zeroStd : List ℚ → ℚ := fun _ => 0

/-- Oracle for a quiet block: no emergencies, no arrivals, all metrics
zero, simulation not about to end. -/
def quietTrace : SimTrace where
  emergAtDecision := fun _ => false
  arrivedAt := fun _ => 0
  emergHaltedAt := fun _ => 0
  minExpectedAt := fun _ => 1
  laneQueueEnd := fun _ => 0
  laneSpeedEnd := fun _ => 0
  laneWaitEnd := fun _ => 0
  edgeQueueEnd := fun _ => 0
  edgeWaitTotalEnd := fun _ => 0
  edgeLaneCount := fun _ => 2
  emergFlagsEnd := fun _ => false
  minExpectedEnd := 1

/-- Oracle for a quiet block except for an emergency vehicle on edge 2
(E2J) throughout. -/
def emergencyEastTrace : SimTrace :=
  { quietTrace with
      emergAtDecision := fun e => e == 2
      emergFlagsEnd := fun e => e == 2 }

/-- NS through green just entered: elapsed time 0. -/
def envFresh : EnvState := ⟨NS_THROUGH, 0, false, 0, NS_THROUGH, 10, 0, 0, [], [], []⟩

/-- NS through green held 20 seconds (minimum hold elapsed). -/
def envHeld20 : EnvState := ⟨NS_THROUGH, 20, false, 0, NS_THROUGH, 50, 0, 0, [], [], []⟩

/-- C1 counterexample: a fresh NS through green (elapsed time 0) with
an ambulance on the red east approach: the scan fires and would force
EW_THROUGH, but because can_switch is false the requested action is
discarded and NO transition is initiated — after the full step the
controller is still in NS_THROUGH with no yellow in progress,
contradicting the unconditional reading of the claim. -/
theorem emergency_preemption_gated_cex :
    checkEmergencyPreemption envFresh emergencyEastTrace.emergAtDecision =
      (true, some EW_THROUGH) ∧
    applyDecision envFresh 3 emergencyEastTrace.emergAtDecision = (envFresh, true) ∧
    (step zeroStd envFresh 3 emergencyEastTrace).env.phase = NS_THROUGH ∧
    (step zeroStd envFresh 3 emergencyEastTrace).env.inYellow = false :=
  ⟨rfl, rfl, rfl, rfl⟩

/-- Witness for C1 amended: NS through held 20 seconds, ambulance on
E2J: for actions 1 and 4 alike the controller enters yellow with queued
target EW_THROUGH. -/
theorem emergency_preemption_override_witness :
    applyDecision envHeld20 1 (fun e => e == 2) = applyDecision envHeld20 4 (fun e => e == 2) ∧
    ∃ e : Fin 4, (fun e : Fin 4 => e == 2) e = true ∧ alreadyServing envHeld20 e = false ∧
      ((EDGE_TO_GREENS e).headI = NS_THROUGH ∨ (EDGE_TO_GREENS e).headI = EW_THROUGH) ∧
      applyDecision envHeld20 1 (fun e => e == 2) =
        (initiateSwitch envHeld20 (EDGE_TO_GREENS e).headI, true) ∧
      (applyDecision envHeld20 1 (fun e => e == 2)).1.inYellow = true ∧
      (applyDecision envHeld20 1 (fun e => e == 2)).1.nextGreen = (EDGE_TO_GREENS e).headI := by
  have h := emergency_preemption_override envHeld20 1 4 (fun e => e == 2) rfl
  exact ⟨h.1, h.2 rfl⟩

/-- C8: when the preemption scan fires, the entire step output — next
state vector, reward, done flag, diagnostic fields, and the resulting
environment state — is identical for every requested action. -/
theorem preemption_action_independent (stdFn : List ℚ → ℚ) (env : EnvState) (a a' : ℕ)
    (tr : SimTrace) (hp : (checkEmergencyPreemption env tr.emergAtDecision).1 = true) :
    step stdFn env a tr = step stdFn env a' tr := by
  have h1 := applyDecision_preempt env tr.emergAtDecision hp a a'
  have h2 : (applyDecision env a' tr.emergAtDecision).2 = true := by
    rw [applyDecision_snd]
    exact hp
  simp only [step, h1, h2, switchedTooSoonFlag_preempted]

/-- Witness for C8: the fresh NS green with the east emergency, actions
1 and 4 produce the identical step result. -/
theorem preemption_action_independent_witness :
    step zeroStd envFresh 1 emergencyEastTrace = step zeroStd envFresh 4 emergencyEastTrace :=
  preemption_action_independent zeroStd envFresh 1 4 emergencyEastTrace rfl

/-! ### Flicker penalty timing (claim C4) -/

/-- List.range at the decision interval, for unfolding the inner loop. -/
lemma range_five : List.range 5 = [0, 1, 2, 3, 4] := rfl

/-- NS through green held exactly its 15-second minimum: can_switch is
true, a requested switch is legal. -/
def envHeld15 : EnvState := ⟨NS_THROUGH, 15, false, 0, NS_THROUGH, 100, 0, 0, [], [], []⟩

/-- NS through green held 11 seconds: the minimum has not elapsed, a
requested switch is refused. -/
def envHeld11 : EnvState := ⟨NS_THROUGH, 11, false, 0, NS_THROUGH, 100, 0, 0, [], [], []⟩

/-- C4: the code evaluates the switched_too_soon flag on the phase and
timer as they stand AFTER the 5-second block, not at request time.  On
a quiet network (every other reward term 0, balance term 4): a LEGAL
switch requested with the minimum hold elapsed (held 15 s, action
EW_THROUGH) completes during the block, the new green's timer reads 3 <
15, and the step is charged the flicker penalty (reward -6 versus 4 for
HOLD — a difference of exactly W_FLICKER); while an early request (held
11 s < 15, refused) ends the block at timer 16 and escapes the penalty
(reward 4).  The claim (and the in-source comments on W_FLICKER) say
the penalty applies exactly to switches requested before the minimum
hold. -/
theorem flicker_penalty_misfires :
    (canSwitch envHeld15 = true ∧
      (step zeroStd envHeld15 3 quietTrace).reward = -6 ∧
      (step zeroStd envHeld15 0 quietTrace).reward = 4) ∧
    (canSwitch envHeld11 = false ∧
      (step zeroStd envHeld11 3 quietTrace).reward = 4) := by
  refine ⟨⟨rfl, ?_, ?_⟩, rfl, ?_⟩ <;>
    norm_num [step, applyDecision, checkEmergencyPreemption, scanPreempt, alreadyServing,
      canSwitch, initiateSwitch, completeSwitch, yellowTick, innerStep, runBlock,
      switchedTooSoonFlag, computeReward, queueDeltaTerm, flickerTerm, collectEdgeMetrics,
      zeroStd, quietTrace, envHeld15, envHeld11, INCOMING_EDGES, DECISION_INTERVAL,
      range_five, GREEN_PHASES, ACTION_HOLD, ACTION_TO_PHASE, NS_THROUGH, NS_LEFT,
      NS_YELLOW, EW_THROUGH, EW_LEFT, EW_YELLOW, MIN_GREEN_LEFT, MIN_GREEN_THROUGH,
      YELLOW_DURATION, W_QUEUE_ABS, W_QUEUE_DELTA, W_ARRIVED, W_EMERGENCY, W_FLICKER,
      W_BALANCE, W_MAX_WAIT, FAIR_WAIT_THRESH, SIM_DURATION]

end ATCS
